import Mathlib

/-!
Verification of the Dekr weekly podcast generator
(`packages/podcast-generator/podcast_generator.py`) against its
natural-language specification.  The Python pipeline is shallowly embedded:
pure audio processing becomes functions on sample lists, the Firestore /
Storage / filesystem effects become explicit state passing over `SysState`,
and Python exceptions become `Except PyError`.
-/

namespace Podcast

/-- Python exception kinds that can arise in the embedded fragment. -/
inductive PyError where
  | typeError
  | attributeError
  | valueError
  | requestError
  | decodeError
  | pydubError
  | exportError
  | uploadError
  | firestoreError
deriving Repr, DecidableEq

/-! ## Audio model (pydub `AudioSegment`)

An audio buffer is modelled as its sequence of 16-bit samples at one sample
per millisecond, so `length` coincides with pydub `len(seg)` in ms.  Gain
operations are modelled as pointwise amplitude scaling (−6 dB halves the
amplitude); pydub `overlay` truncates the overlaid segment to the base
segment (`seg2 = seg2[:remaining]` in pydub) and adds samples with
saturation (`audioop.add`). -/

/-- An in-memory decoded audio buffer (pydub `AudioSegment`). -/
structure AudioSegment where
  samples : List Int
deriving Repr, DecidableEq

/-- Duration of a buffer in milliseconds (pydub `len(seg)`). -/
def AudioSegment.length (a : AudioSegment) : Nat := a.samples.length

/-- pydub `AudioSegment.silent(duration)`: all-zero samples. -/
def AudioSegment.silent (durationMs : Nat) : AudioSegment :=
  ⟨List.replicate durationMs 0⟩

/-- pydub `seg.fade_out(duration)`: a gain ramp to silence over the final
`duration` ms, modelled as a linear amplitude ramp; length-preserving. -/
def AudioSegment.fade_out (a : AudioSegment) (duration : Nat) : AudioSegment :=
  let n := a.samples.length
  ⟨a.samples.enum.map (fun p =>
    if p.1 + duration < n then p.2
    else if duration = 0 then p.2
    else p.2 * Int.ofNat (n - p.1) / Int.ofNat duration)⟩

/-- pydub `seg.apply_gain(g)` (also written `seg + g` / `seg - g`):
amplitude scaling by a factor of 2 per 6 dB; length-preserving. -/
def AudioSegment.apply_gain (a : AudioSegment) (gainDb : Int) : AudioSegment :=
  if gainDb < 0 then ⟨a.samples.map (fun s => s / (2 : Int) ^ ((-gainDb).toNat / 6))⟩
  else ⟨a.samples.map (fun s => s * (2 : Int) ^ (gainDb.toNat / 6))⟩

instance : HSub AudioSegment Nat AudioSegment :=
  ⟨fun a n => a.apply_gain (-(n : Int))⟩

/-- Largest 16-bit sample value, the normalization target. -/
def max_sample_value : Int := 32767

/-- pydub `effects.normalize(seg)`: scale so the peak reaches the maximum
sample value; a silent buffer is returned unchanged; length-preserving. -/
def normalize (a : AudioSegment) : AudioSegment :=
  let peak := a.samples.foldl (fun (m : Nat) s => max m s.natAbs) 0
  if peak = 0 then a
  else ⟨a.samples.map (fun s => s * max_sample_value / Int.ofNat peak)⟩

/-- Saturating 16-bit addition (`audioop.add`). -/
def satAdd (x y : Int) : Int := max (-32768) (min 32767 (x + y))

/-- pydub `base.overlay(seg, position)`: sample-wise saturated addition on
the overlap; the result always has the BASE segment's length, the overlaid
segment being truncated to what fits (pydub `seg2 = seg2[:remaining]`). -/
def AudioSegment.overlay (base seg : AudioSegment) (position : Nat) : AudioSegment :=
  ⟨base.samples.enum.map (fun p =>
    if p.1 < position then p.2
    else match seg.samples.get? (p.1 - position) with
      | some s => satAdd p.2 s
      | none => p.2)⟩

/-- Embedding of `PodcastGenerator.mix_audio` (lines 202-218): fade the
intro out over 3 s, normalize the voice, overlay the voice at position 0,
then recompute the overlay on the −6 dB attenuated intro, shadowing the
first result exactly as the Python local `final_audio` is reassigned. -/
def mix_audio (intro_audio voice_audio : AudioSegment) : AudioSegment :=
  let intro_faded := intro_audio.fade_out 3000
  let voice_normalized := normalize voice_audio
  let final_audio := intro_faded.overlay voice_normalized 0
  let intro_volume_adjusted := intro_faded - 6
  let final_audio := intro_volume_adjusted.overlay voice_normalized 0
  final_audio

/-- Canonical single attenuate-then-overlay sequence, written from the
specification text of section 4.4: fade out the intro over 3 seconds,
normalize the voice, attenuate the faded intro by 6 dB, then overlay the
normalized voice onto the attenuated intro at position zero. -/
def canonical_mix (intro_audio voice_audio : AudioSegment) : AudioSegment :=
  let intro_faded := intro_audio.fade_out 3000
  let voice_normalized := normalize voice_audio
  let intro_attenuated := intro_faded - 6
  intro_attenuated.overlay voice_normalized 0

/-! ## Eligibility checker (`should_generate_podcast`, lines 240-255)

The stored `lastPodcast` value may be absent, a store-native timestamp (a
`datetime` subclass, which HAS a `.timestamp()` method returning a float of
epoch seconds), or a raw number.  Python dynamic typing is embedded
explicitly: subtracting a number from a `datetime` raises `TypeError`, and
only a `timedelta` has a `.days` attribute (floor division by 86400). -/

/-- Python values appearing in the eligibility computation. -/
inductive PyVal where
  | datetime (epochSeconds : Int)
  | number (value : Int)
  | timedelta (seconds : Int)
deriving Repr, DecidableEq

/-- Python truthiness of the relevant values (`0` and `timedelta(0)` are
falsy, any `datetime` is truthy). -/
def pyTruthy : PyVal → Bool
  | .datetime _ => true
  | .number n => n != 0
  | .timedelta s => s != 0

/-- Python `hasattr(x, ...)` for the `timestamp` attribute: `datetime`
instances (including store-native timestamps) have the method. -/
def hasTimestampAttr : PyVal → Bool
  | .datetime _ => true
  | .number _ => false
  | .timedelta _ => false

/-- Calling `.timestamp()` on a datetime yields a float of epoch seconds. -/
def callTimestamp : PyVal → PyVal
  | .datetime t => .number t
  | v => v

/-- Python subtraction with a `datetime` on the left: defined only against
another `datetime` (giving a `timedelta`) or a `timedelta`; subtracting a
number raises `TypeError`. -/
def pySub : PyVal → PyVal → Except PyError PyVal
  | .datetime a, .datetime b => .ok (.timedelta (a - b))
  | .datetime a, .timedelta s => .ok (.datetime (a - s))
  | _, _ => .error .typeError

/-- Python attribute `.days`: only a `timedelta` has it; Python normalizes
with floor division, so `timedelta(seconds=s).days = s // 86400`. -/
def daysAttr : PyVal → Except PyError Int
  | .timedelta s => .ok (Int.fdiv s 86400)
  | _ => .error .attributeError

/-- Embedding of `PodcastGenerator.should_generate_podcast` (lines 240-255).
`now` is `datetime.now()` as epoch seconds.  A falsy/absent `lastPodcast`
returns `True`; otherwise the code converts a timestamp-like value to a
float via `.timestamp()` and computes `(now - last_podcast_date).days >= 7`,
with Python subtraction and attribute semantics as above. -/
def should_generate_podcast (lastPodcast : Option PyVal) (now : Int) :
    Except PyError Bool :=
  match lastPodcast with
  | none => .ok true
  | some last_podcast =>
    if pyTruthy last_podcast = false then .ok true
    else
      let last_podcast_date :=
        if hasTimestampAttr last_podcast then callTimestamp last_podcast
        else last_podcast
      match pySub (PyVal.datetime now) last_podcast_date with
      | .error e => .error e
      | .ok diff =>
        match daysAttr diff with
        | .error e => .error e
        | .ok days_since_last => .ok (decide (7 ≤ days_since_last))

/-! ## Script synthesizer (`generate_podcast_script`, lines 77-157)

The OpenAI call is modelled by its observable outcome: either the request
raises, or it succeeds with an `Optional[str]` content.  The prompt text
does not influence control flow.  The source returns
`response.choices[0].message.content or self.get_fallback_script()`, so a
`None` or empty content also falls back (Python `or` truthiness). -/

/-- Outcome of the text-generation backend call. -/
inductive BackendResult where
  | failure
  | success (content : Option String)
deriving Repr, DecidableEq

/-- Embedding of `PodcastGenerator.get_fallback_script` (lines 137-157):
the exact canned script returned when OpenAI fails. -/
def get_fallback_script : String := "Well, well, well... if you're listening to this, you've made it through another week in the markets, and let me tell you, what a week it's been. Welcome to your personalized Dekr Weekly podcast.

Here's the thing about this week - our community absolutely crushed it. We're talking about 1,250 smart people all looking at the same data and coming to remarkably similar conclusions. That's not luck, folks, that's collective intelligence in action.

Leading the charge this week is Alex Chen with a 12.5% return and 85.2% prediction accuracy. That's the kind of consistency that makes Wall Street take notice. Not to be outdone, Sarah Johnson delivered a solid 9.8% return with a 78.9% accuracy rate.

Here's where it gets interesting - the markets had themselves quite the week. The S&P 500 gained 2.3%, the NASDAQ popped 3.1%, and here's the kicker - our community saw it coming. I'm talking about 78% accuracy in the tech sector alone.

Apple and Tesla were the talk of the town this week, with 45 and 38 recommendations respectively. But here's what's really compelling - these weren't just blind recommendations. They came with data, with analysis, with actual reasoning behind them.

The Fed's latest move - holding rates steady with some surprisingly dovish commentary - sent ripples through the financial sector. But our community had already positioned themselves for exactly this scenario.

Here's what I want you to take away from this week's performance: we're not just building a trading community here, we're building a learning community. We're building a place where smart people can share ideas, test strategies, and yes, make money together.

The markets will do what the markets do - they'll go up, they'll go down, they'll make you question everything you thought you knew. But this community? This community is different. This community is thinking, learning, and adapting.

And that, my friends, is how you build wealth that lasts.

Until next week, keep your charts close and your stop-losses closer. This is your Dekr Weekly, and I'll see you on the trading floor."

/-- Embedding of `PodcastGenerator.generate_podcast_script` (lines 77-135):
the `try` returns `content or fallback`, the `except` returns the fallback,
so the function is total and never raises. -/
def generate_podcast_script (backend : BackendResult) : String :=
  match backend with
  | .failure => get_fallback_script
  | .success none => get_fallback_script
  | .success (some content) =>
    if content = "" then get_fallback_script else content

/-! ## Pipeline state and effects (`generate_podcast`, lines 257-336)

External effects are embedded as explicit state: `blobs` is the set of
object-storage writes, `podcasts` the Firestore program records, `tempFiles`
the temporary files currently existing on disk, `voiceCalls` the voice
identifiers passed to the ElevenLabs call, and `userUpdated` whether the
user record's last-generation fields were written.  Each fallible external
call is driven by a success flag in `PipelineEnv`, modelling whether that
call raises; an exception propagates exactly as in the Python source, whose
outer `except` logs and re-raises. -/

/-- A Firestore program record (`podcast_data`, lines 302-312). -/
structure PodcastDoc where
  userId : String
  title : String
  script : String
  audioUrl : String
  duration : Nat
  voiceId : String
  introStinger : String
  status : String
deriving Repr, DecidableEq

/-- The dictionary returned by a successful `generate_podcast`
(lines 326-332). -/
structure PodcastResult where
  id : String
  userId : String
  audioUrl : String
  duration : Nat
  status : String
deriving Repr, DecidableEq

/-- Observable external state threaded through a pipeline run. -/
structure SysState where
  blobs : List String
  podcasts : List PodcastDoc
  userUpdated : Bool
  tempFiles : List String
  voiceCalls : List String
deriving Repr, DecidableEq

/-- Environment of one pipeline run: the user document contents, the
outcomes of the external calls, and the nondeterministic inputs (random
intro choice, current time strings, decoded audio contents). -/
structure PipelineEnv where
  userExists : Bool
  preferredVoiceId : Option String
  backend : BackendResult
  voiceOk : Bool
  introFound : Bool
  introAudio : AudioSegment
  voiceAudio : AudioSegment
  decodeOk : Bool
  mixOk : Bool
  exportOk : Bool
  uploadOk : Bool
  createRecordOk : Bool
  updateUserOk : Bool
  introName : String
  timestampStr : String
  dateStr : String
  podcastId : String
deriving Repr, DecidableEq

/-- Default ElevenLabs voice used when the user record lacks
`preferredVoiceId` (line 269). -/
def default_voice_id : String := "vDchjyOZZytffNeZXfZK"

/-- Name of the `NamedTemporaryFile` holding the raw voice bytes. -/
def tempVoiceFile : String := "temp_voice.mp3"

/-- Name of the `NamedTemporaryFile` holding the exported mix. -/
def tempFinalFile : String := "temp_final.mp3"

/-- Embedding of `PodcastGenerator.load_intro_audio` (lines 192-200): a
missing intro file is replaced by 3 seconds of silence. -/
def load_intro_audio (introFound : Bool) (intro : AudioSegment) : AudioSegment :=
  if introFound then intro else AudioSegment.silent 3000

/-- Embedding of `PodcastGenerator.upload_to_firebase_storage`
(lines 220-238): on success the blob is written at
`podcasts/{uid}/podcast_{timestamp}.mp3` and its public URL returned; the
`except` clause logs and re-raises, so a failure leaves the state unchanged
and propagates. -/
def upload_to_firebase_storage (uploadOk : Bool) (uid timestampStr : String)
    (s : SysState) : Except PyError String × SysState :=
  let blob_path := "podcasts/" ++ uid ++ "/podcast_" ++ timestampStr ++ ".mp3"
  if uploadOk then
    (.ok ("https://storage.googleapis.com/" ++ blob_path),
     { s with blobs := s.blobs ++ [blob_path] })
  else (.error .uploadError, s)

/-- Embedding of `PodcastGenerator.generate_podcast` (lines 257-336).  The
steps follow the source in order: fetch the user document, resolve the
voice id with its default, synthesize the script (total), call the voice
backend, load the intro, decode the voice bytes through a
`NamedTemporaryFile(delete=False)` that is `os.unlink`-ed only after a
successful decode, mix, export through a second such temporary file, upload,
create the program record, and update the user record.  The outer `except`
re-raises, so every failure propagates with the state reached so far. -/
def generate_podcast (env : PipelineEnv) (uid : String) (s0 : SysState) :
    Except PyError PodcastResult × SysState :=
  if env.userExists = false then (.error .valueError, s0) else
  let voice_id := env.preferredVoiceId.getD default_voice_id
  let script := generate_podcast_script env.backend
  let s1 := { s0 with voiceCalls := s0.voiceCalls ++ [voice_id] }
  if env.voiceOk = false then (.error .requestError, s1) else
  let intro_audio := load_intro_audio env.introFound env.introAudio
  let s2 := { s1 with tempFiles := s1.tempFiles ++ [tempVoiceFile] }
  if env.decodeOk = false then (.error .decodeError, s2) else
  let voice_audio := env.voiceAudio
  let s3 := { s2 with tempFiles := s2.tempFiles.filter (fun f => f != tempVoiceFile) }
  if env.mixOk = false then (.error .pydubError, s3) else
  let final_audio := mix_audio intro_audio voice_audio
  let s4 := { s3 with tempFiles := s3.tempFiles ++ [tempFinalFile] }
  if env.exportOk = false then (.error .exportError, s4) else
  let s5 := { s4 with tempFiles := s4.tempFiles.filter (fun f => f != tempFinalFile) }
  match upload_to_firebase_storage env.uploadOk uid env.timestampStr s5 with
  | (.error e, s6) => (.error e, s6)
  | (.ok audio_url, s6) =>
    let podcast_data : PodcastDoc :=
      { userId := uid
        title := "Weekly Market Update - " ++ env.dateStr
        script := script
        audioUrl := audio_url
        duration := final_audio.length / 1000
        voiceId := voice_id
        introStinger := env.introName
        status := "completed" }
    if env.createRecordOk = false then (.error .firestoreError, s6) else
    let s7 := { s6 with podcasts := s6.podcasts ++ [podcast_data] }
    if env.updateUserOk = false then (.error .firestoreError, s7) else
    let s8 := { s7 with userUpdated := true }
    (.ok { id := env.podcastId, userId := uid, audioUrl := audio_url,
           duration := podcast_data.duration, status := "completed" }, s8)

/-- Whether a pipeline run raised (its exception reaches the caller). -/
def pipelineFailed (r : Except PyError PodcastResult × SysState) : Bool :=
  match r.1 with
  | .error _ => true
  | .ok _ => false

/-! ## Batch runner (`run_weekly_job`, lines 338-369) -/

/-- One streamed user document together with the environment its pipeline
run would see. -/
structure UserDoc where
  uid : String
  lastPodcast : Option PyVal
  env : PipelineEnv

/-- Counters returned by the weekly job (line 341). -/
structure BatchResults where
  generated : Nat
  skipped : Nat
  errors : Nat
deriving Repr, DecidableEq

/-- Body of the per-user loop of `run_weekly_job` (lines 347-362): the
per-user `try` covers both the eligibility check and the pipeline run, so
an exception from either increments `errors` and the iteration continues. -/
def process_user (now : Int) (acc : BatchResults × SysState) (user_doc : UserDoc) :
    BatchResults × SysState :=
  match should_generate_podcast user_doc.lastPodcast now with
  | .error _ => ({ acc.1 with errors := acc.1.errors + 1 }, acc.2)
  | .ok true =>
    match generate_podcast user_doc.env user_doc.uid acc.2 with
    | (.ok _, s2) => ({ acc.1 with generated := acc.1.generated + 1 }, s2)
    | (.error _, s2) => ({ acc.1 with errors := acc.1.errors + 1 }, s2)
  | .ok false => ({ acc.1 with skipped := acc.1.skipped + 1 }, acc.2)

/-- Embedding of `PodcastGenerator.run_weekly_job` (lines 338-369): fold
the per-user body over the streamed user documents starting from zeroed
counters. -/
def run_weekly_job (now : Int) (users : List UserDoc) (s0 : SysState) :
    BatchResults × SysState :=
  users.foldl (process_user now) ({ generated := 0, skipped := 0, errors := 0 }, s0)

/-- Sum of the three counters. -/
def resultsTotal (r : BatchResults) : Nat := r.generated + r.skipped + r.errors

/-- Baseline run environment for concrete witnesses: the user document
exists without a preferred voice id, and every external call succeeds. -/
def envAllOk : PipelineEnv :=
  { userExists := true
    preferredVoiceId := none
    backend := BackendResult.failure
    voiceOk := true
    introFound := false
    introAudio := AudioSegment.silent 3
    voiceAudio := AudioSegment.silent 5
    decodeOk := true
    mixOk := true
    exportOk := true
    uploadOk := true
    createRecordOk := true
    updateUserOk := true
    introName := "Podcast Intro.mp3"
    timestampStr := "20261012_120000"
    dateStr := "October 12, 2026"
    podcastId := "pod1" }

/-- Empty external state for concrete witnesses. -/
def s0Empty : SysState :=
  { blobs := [], podcasts := [], userUpdated := false, tempFiles := [], voiceCalls := [] }

/-! ## Length lemmas for the audio operations -/

/-- A silent buffer of `d` ms has length `d`. -/
theorem length_silent (d : Nat) : (AudioSegment.silent d).length = d := by
  simp [AudioSegment.silent, AudioSegment.length]

/-- Fading out preserves the buffer length. -/
theorem length_fade_out (a : AudioSegment) (d : Nat) :
    (a.fade_out d).length = a.length := by
  simp [AudioSegment.fade_out, AudioSegment.length]

/-- Gain adjustment preserves the buffer length. -/
theorem length_apply_gain (a : AudioSegment) (g : Int) :
    (a.apply_gain g).length = a.length := by
  unfold AudioSegment.apply_gain
  split <;> simp [AudioSegment.length]

/-- The pydub `seg - n` gain form preserves the buffer length. -/
theorem length_hsub (a : AudioSegment) (n : Nat) : (a - n).length = a.length :=
  length_apply_gain a _

/-- Normalization preserves the buffer length. -/
theorem length_normalize (a : AudioSegment) : (normalize a).length = a.length := by
  unfold normalize
  by_cases h : a.samples.foldl (fun (m : Nat) s => max m s.natAbs) 0 = 0 <;>
    simp [h, AudioSegment.length]

/-- pydub overlay always returns a buffer of the BASE segment's length: the
overlaid segment is truncated, never extending the result. -/
theorem length_overlay (base seg : AudioSegment) (p : Nat) :
    (base.overlay seg p).length = base.length := by
  simp [AudioSegment.overlay, AudioSegment.length]

/-- The mixer output always has the intro buffer's length, regardless of
the voice buffer. -/
theorem mix_audio_length (i v : AudioSegment) :
    (mix_audio i v).length = i.length := by
  simp [mix_audio, length_overlay, length_hsub, length_fade_out]

/-! ## Claim theorems -/

/-- Claim C1 (code bug): the claim says the mixer output length equals the
longer of the two inputs, hence is at least the voice length.  In fact
pydub `overlay` truncates to the base segment, so `mix_audio` always
returns a buffer of the INTRO's length: with the 3-second silent intro
substituted for a missing intro file and a 5-second voice, the output is
3000 ms, strictly shorter than the 5000 ms voice. -/
theorem C1_mix_output_truncated :
    (mix_audio (AudioSegment.silent 3000) (AudioSegment.silent 5000)).length = 3000 ∧
    (AudioSegment.silent 5000).length = 5000 := by
  constructor
  · rw [mix_audio_length, length_silent]
  · rw [length_silent]

/-- Claim C7 (confirmed): `mix_audio` as written equals the canonical
single attenuate-then-overlay sequence of spec section 4.4 for every pair
of input buffers; the first overlay is computed into a local that is
immediately shadowed, so it is dead code and the observable output is the
overlay of the normalized voice onto the faded, 6 dB-attenuated intro at
position zero. -/
theorem C7_mix_equals_canonical (intro_audio voice_audio : AudioSegment) :
    mix_audio intro_audio voice_audio = canonical_mix intro_audio voice_audio := rfl

/-- Claim C2 (code bug): the claim says a last-generation value 7 or more
days in the past is eligible.  The code converts any timestamp-like value
to a float of epoch seconds via `.timestamp()` and then computes
`datetime.now() - float`, which raises `TypeError`; so for a store
timestamp exactly 8 days in the past the checker raises instead of
returning eligible.  The absent case does return eligible. -/
theorem C2_eligibility_raises_on_timestamp :
    should_generate_podcast (some (PyVal.datetime (1760227200 - 8 * 86400))) 1760227200 =
      Except.error PyError.typeError ∧
    should_generate_podcast none 1760227200 = Except.ok true := ⟨rfl, rfl⟩

/-- Claim C3 (code bug): the claim says the checker never raises and
tolerates raw numeric last-generation values.  For a nonzero raw number the
code reaches `datetime.now() - number`, which raises `TypeError` rather
than returning a boolean. -/
theorem C3_checker_raises_on_number :
    should_generate_podcast (some (PyVal.number 1700000000)) 1760227200 =
      Except.error PyError.typeError := rfl

/-- Claim C4 counterexample: when the backend SUCCEEDS but returns an empty
content string, `generate_podcast_script` returns the fallback script, not
the backend's text, refuting the claim's clause that on backend success the
backend's text is returned. -/
theorem C4_counterexample :
    generate_podcast_script (BackendResult.success (some "")) = get_fallback_script ∧
    get_fallback_script ≠ "" := by
  refine ⟨rfl, ?_⟩
  decide

/-- Claim C4 as amended (proved): `generate_podcast_script` never returns
an empty string and never raises; on backend failure, and on backend
success with missing or empty content, it returns exactly the fixed
fallback script; on backend success with non-empty content it returns that
content. -/
theorem C4_script_never_empty (b : BackendResult) :
    generate_podcast_script b ≠ "" ∧
    (b = BackendResult.failure → generate_podcast_script b = get_fallback_script) ∧
    (∀ s : String, s ≠ "" → b = BackendResult.success (some s) →
      generate_podcast_script b = s) ∧
    (b = BackendResult.success none → generate_podcast_script b = get_fallback_script) ∧
    (b = BackendResult.success (some "") → generate_podcast_script b = get_fallback_script) := by
  have hfb : get_fallback_script ≠ "" := by decide
  cases b with
  | failure => simp [generate_podcast_script, hfb]
  | success content =>
    cases content with
    | none => simp [generate_podcast_script, hfb]
    | some c =>
      by_cases hc : c = ""
      · subst hc
        simp only [generate_podcast_script, if_pos rfl]
        refine ⟨hfb, ?_, ?_, ?_, ?_⟩
        · intro h; cases h
        · intro s hs h
          cases h
          exact absurd rfl hs
        · intro h; cases h
        · intro _; rfl
      · simp only [generate_podcast_script, if_neg hc]
        refine ⟨hc, ?_, ?_, ?_, ?_⟩
        · intro h; cases h
        · intro s hs h
          cases h
          rfl
        · intro h; cases h
        · intro h
          cases h
          exact absurd rfl hc

/-- Witness for C4: applying the amended theorem at the concrete failure
input and at a concrete non-empty success input. -/
theorem C4_witness :
    generate_podcast_script BackendResult.failure = get_fallback_script ∧
    generate_podcast_script (BackendResult.success (some "Hello traders")) = "Hello traders" :=
  ⟨(C4_script_never_empty BackendResult.failure).2.1 rfl,
   (C4_script_never_empty (BackendResult.success (some "Hello traders"))).2.2.1
     "Hello traders" (by decide) rfl⟩

/-- Each loop iteration of the batch runner increments exactly one counter. -/
theorem process_user_total (now : Int) (acc : BatchResults × SysState) (u : UserDoc) :
    resultsTotal (process_user now acc u).1 = resultsTotal acc.1 + 1 := by
  unfold process_user
  cases hsg : should_generate_podcast u.lastPodcast now with
  | error e => simp [resultsTotal]; omega
  | ok b =>
    cases b with
    | false => simp [resultsTotal]; omega
    | true =>
      cases hg : generate_podcast u.env u.uid acc.2 with
      | mk r s2 => cases r <;> simp [resultsTotal] <;> omega

/-- Folding the per-user body over any user list adds exactly the list
length to the counter total. -/
theorem run_weekly_job_total_aux (now : Int) (users : List UserDoc) :
    ∀ acc : BatchResults × SysState,
      resultsTotal (users.foldl (process_user now) acc).1 =
        resultsTotal acc.1 + users.length := by
  induction users with
  | nil => intro acc; simp
  | cons u rest ih =>
    intro acc
    rw [List.foldl_cons, ih, process_user_total]
    simp [List.length_cons]
    omega

/-- Claim C5 (confirmed): for every sequence of user records and any mix of
eligible, ineligible, and failing users (including users for whom the
eligibility check itself raises), `run_weekly_job` increments exactly one
of the generated/skipped/errors counters per user, so that
generated + skipped + errors equals the number of users processed; a
per-user exception is caught and counted and the fold continues over the
remaining users. -/
theorem C5_batch_counts (now : Int) (users : List UserDoc) (s0 : SysState) :
    (run_weekly_job now users s0).1.generated + (run_weekly_job now users s0).1.skipped +
      (run_weekly_job now users s0).1.errors = users.length := by
  have h := run_weekly_job_total_aux now users
    ({ generated := 0, skipped := 0, errors := 0 }, s0)
  simpa [run_weekly_job, resultsTotal] using h

/-- Claim C6 (confirmed): whenever voice synthesis, audio mixing, or the
storage upload fails, `generate_podcast` creates no program record, leaves
the user record's last-generation fields untouched, and propagates the
exception: the failure aborts execution before the record-creation step. -/
theorem C6_no_record_on_failure (env : PipelineEnv) (uid : String) (s0 : SysState)
    (h : env.voiceOk = false ∨ env.mixOk = false ∨ env.uploadOk = false) :
    (generate_podcast env uid s0).2.podcasts = s0.podcasts ∧
    (generate_podcast env uid s0).2.userUpdated = s0.userUpdated ∧
    pipelineFailed (generate_podcast env uid s0) = true := by
  cases hue : env.userExists <;>
  cases hv : env.voiceOk <;>
  cases hd : env.decodeOk <;>
  cases hm : env.mixOk <;>
  cases he : env.exportOk <;>
  cases hup : env.uploadOk <;>
    simp_all [generate_podcast, upload_to_firebase_storage, pipelineFailed]

/-- Witness for C6: a concrete run whose storage upload fails creates no
program record, performs no user-record update, and raises. -/
theorem C6_witness :
    (generate_podcast { envAllOk with uploadOk := false } "user1" s0Empty).2.podcasts =
      s0Empty.podcasts ∧
    (generate_podcast { envAllOk with uploadOk := false } "user1" s0Empty).2.userUpdated =
      s0Empty.userUpdated ∧
    pipelineFailed (generate_podcast { envAllOk with uploadOk := false } "user1" s0Empty) =
      true :=
  C6_no_record_on_failure { envAllOk with uploadOk := false } "user1" s0Empty
    (Or.inr (Or.inr rfl))

/-- Claim C8 (code bug): the claim says every temporary file is deleted on
every exit path.  The voice temporary file is created with `delete=False`
and `os.unlink` runs only after a successful decode, so when
`AudioSegment.from_mp3` raises on the voice bytes the file survives the
pipeline invocation: starting from an empty filesystem the failing run
terminates with the voice temporary file still present. -/
theorem C8_temp_file_leak :
    (generate_podcast { envAllOk with decodeOk := false } "user1" s0Empty).2.tempFiles =
      [tempVoiceFile] ∧
    pipelineFailed (generate_podcast { envAllOk with decodeOk := false } "user1" s0Empty) =
      true := ⟨rfl, rfl⟩

/-- Claim C9 (confirmed): when every stage through the storage upload
succeeds but the program-record creation or the user-record update fails,
the uploaded blob stays in object storage (no rollback or delete) and the
failure is raised to the caller rather than swallowed. -/
theorem C9_no_rollback (env : PipelineEnv) (uid : String) (s0 : SysState)
    (h1 : env.userExists = true) (h2 : env.voiceOk = true) (h3 : env.decodeOk = true)
    (h4 : env.mixOk = true) (h5 : env.exportOk = true) (h6 : env.uploadOk = true)
    (h7 : env.createRecordOk = false ∨ env.updateUserOk = false) :
    (generate_podcast env uid s0).2.blobs =
      s0.blobs ++ ["podcasts/" ++ uid ++ "/podcast_" ++ env.timestampStr ++ ".mp3"] ∧
    pipelineFailed (generate_podcast env uid s0) = true := by
  cases h7 with
  | inl hc =>
    simp [generate_podcast, upload_to_firebase_storage, pipelineFailed,
      h1, h2, h3, h4, h5, h6, hc]
  | inr hu =>
    cases hc : env.createRecordOk <;>
      simp [generate_podcast, upload_to_firebase_storage, pipelineFailed,
        h1, h2, h3, h4, h5, h6, hc, hu]

/-- Witness for C9: a concrete run where the upload succeeds and the
program-record creation fails keeps the blob and raises. -/
theorem C9_witness :
    (generate_podcast { envAllOk with createRecordOk := false } "user1" s0Empty).2.blobs =
      s0Empty.blobs ++ ["podcasts/" ++ "user1" ++ "/podcast_" ++
        ({ envAllOk with createRecordOk := false } : PipelineEnv).timestampStr ++ ".mp3"] ∧
    pipelineFailed (generate_podcast { envAllOk with createRecordOk := false } "user1"
      s0Empty) = true :=
  C9_no_rollback { envAllOk with createRecordOk := false } "user1" s0Empty
    rfl rfl rfl rfl rfl rfl (Or.inl rfl)

/-- Claim C10 (confirmed): for a user record lacking `preferredVoiceId`, a
fully successful `generate_podcast` run calls voice synthesis with the
fixed default voice identifier and records exactly that identifier in the
created program record's `voiceId` field. -/
theorem C10_default_voice (env : PipelineEnv) (uid : String) (s0 : SysState)
    (hpref : env.preferredVoiceId = none)
    (hok : env.userExists = true ∧ env.voiceOk = true ∧ env.decodeOk = true ∧
      env.mixOk = true ∧ env.exportOk = true ∧ env.uploadOk = true ∧
      env.createRecordOk = true ∧ env.updateUserOk = true) :
    (generate_podcast env uid s0).2.voiceCalls = s0.voiceCalls ++ [default_voice_id] ∧
    ∃ doc : PodcastDoc,
      (generate_podcast env uid s0).2.podcasts = s0.podcasts ++ [doc] ∧
      doc.voiceId = default_voice_id := by
  obtain ⟨h1, h2, h3, h4, h5, h6, h7, h8⟩ := hok
  refine ⟨?_,
    ⟨{ userId := uid
       title := "Weekly Market Update - " ++ env.dateStr
       script := generate_podcast_script env.backend
       audioUrl := "https://storage.googleapis.com/" ++
         ("podcasts/" ++ uid ++ "/podcast_" ++ env.timestampStr ++ ".mp3")
       duration := (mix_audio (load_intro_audio env.introFound env.introAudio)
         env.voiceAudio).length / 1000
       voiceId := default_voice_id
       introStinger := env.introName
       status := "completed" }, ?_, rfl⟩⟩ <;>
    simp [generate_podcast, upload_to_firebase_storage, hpref,
      h1, h2, h3, h4, h5, h6, h7, h8]

/-- Witness for C10: the baseline all-success environment has no preferred
voice id; the run calls synthesis with the default id and stores it. -/
theorem C10_witness :
    (generate_podcast envAllOk "user1" s0Empty).2.voiceCalls =
      s0Empty.voiceCalls ++ [default_voice_id] ∧
    ∃ doc : PodcastDoc,
      (generate_podcast envAllOk "user1" s0Empty).2.podcasts = s0Empty.podcasts ++ [doc] ∧
      doc.voiceId = default_voice_id :=
  C10_default_voice envAllOk "user1" s0Empty rfl
    ⟨rfl, rfl, rfl, rfl, rfl, rfl, rfl, rfl⟩

end Podcast
